import Mathlib

/-
Verification of the StockGuardian portfolio valuation and alert engine.

The alert pass is embedded from check_alerts (src/utils.py lines 31-53)
and the Create Alert handler (src/utils.py lines 155-166); the valuation
arithmetic from the Live P&L loop (src/app.py lines 286-311). The
calculate_pnl, get_stock_price and forecast_stock functions are imported
in src/utils.py line 7 from a utils module that is not among the source
files; where a property depends on them, the definition is modelled from
the specification and says so in its doc comment.

Prices, percentages and money amounts are modelled as rationals; pandas
frames as lists of typed rows; the Python None / falsy conventions as
Option values.
-/

namespace StockGuardian

/-- Alert kinds, the values of the type column of the alerts frame in
src/utils.py (price, profit, drop as chosen in the tab_alert selectbox at
line 146). -/
inductive AType where
  | price
  | profit
  | drop
deriving DecidableEq

/-- One row of the alerts frame (src/utils.py, session_state.alerts,
columns declared at lines 21-24): the symbol, the alert type, and the
threshold stored in the column matching the type (target_price,
profit_pct or drop_pct). The columns for the other types hold NA and are
never read for this row, so they are omitted; the frame has no fired
column. -/
structure Alert where
  symbol : String
  atype : AType
  threshold : ℚ
deriving DecidableEq

/-- One row of the df_pnl valuation frame consumed by check_alerts: the
symbol and its pnl_pct column. -/
structure PnlRow where
  symbol : String
  pnl_pct : ℚ
deriving DecidableEq

/-- The pandas positional lookup df_pnl.loc[df_pnl[symbol] == sym,
pnl_pct].iloc[0] at src/utils.py lines 42 and 46: the pnl_pct of the
first row whose symbol matches, none when the selection is empty (where
the Python .iloc[0] raises IndexError). -/
def lookupPnl (df : List PnlRow) (sym : String) : Option ℚ :=
  (df.find? (fun r => r.symbol == sym)).map (·.pnl_pct)

/-- A delivered notification: check_alerts at src/utils.py lines 50-53
sends an email and a WhatsApp message carrying the symbol, the alert
type, the threshold that fired and the observed value interpolated into
the message text. -/
structure Msg where
  symbol : String
  atype : AType
  threshold : ℚ
  observed : ℚ
deriving DecidableEq

/-- Outcome of one iteration of the check_alerts loop body
(src/utils.py lines 32-53) for a single alert row: the row is skipped, a
message is sent, or the pandas lookup raises IndexError. -/
inductive Step where
  | skip
  | send (m : Msg)
  | raiseErr
deriving DecidableEq

/-- One iteration of the check_alerts loop (src/utils.py lines 32-53).
The price source result for the symbol is fetched first; a falsy result
(None, or the float 0.0, line 35) skips the row. A price alert sends when
cur >= target_price (line 39); a profit alert looks pnl_pct up in df_pnl
(raising when the symbol is absent) and sends when pnl_pct >= profit_pct
(lines 42-43); a drop alert likewise sends when pnl_pct <= -abs(drop_pct)
(lines 46-47). -/
def evalOne (price : String → Option ℚ) (df : List PnlRow) (a : Alert) : Step :=
  match price a.symbol with
  | none => .skip
  | some cur =>
    if cur = 0 then .skip
    else
      match a.atype with
      | .price =>
        if a.threshold ≤ cur then .send ⟨a.symbol, .price, a.threshold, cur⟩ else .skip
      | .profit =>
        match lookupPnl df a.symbol with
        | none => .raiseErr
        | some pct =>
          if a.threshold ≤ pct then .send ⟨a.symbol, .profit, a.threshold, pct⟩ else .skip
      | .drop =>
        match lookupPnl df a.symbol with
        | none => .raiseErr
        | some pct =>
          if pct ≤ -|a.threshold| then .send ⟨a.symbol, .drop, a.threshold, pct⟩ else .skip

/-- Result of one whole check_alerts pass: the messages actually
delivered, in order, and whether the pass aborted with an uncaught
exception. -/
structure AlertRun where
  sent : List Msg
  raised : Bool
deriving DecidableEq

/-- The check_alerts loop of src/utils.py lines 31-53 over the alerts
frame: rows are processed in order; a sent message is delivered
immediately (a side effect of the iteration), and an IndexError from the
pnl_pct lookup aborts the remainder of the pass while the messages
already sent stay delivered. -/
def checkAlerts (price : String → Option ℚ) (df : List PnlRow) :
    List Alert → AlertRun
  | [] => ⟨[], false⟩
  | a :: rest =>
    match evalOne price df a with
    | .skip => checkAlerts price df rest
    | .send m =>
      let r := checkAlerts price df rest
      ⟨m :: r.sent, r.raised⟩
    | .raiseErr => ⟨[], true⟩

/-- The Create Alert button handler at src/utils.py lines 155-166: the
new alert row is appended to the frame by pd.concat with ignore_index and
no duplicate check of any kind. -/
def createAlert (store : List Alert) (a : Alert) : List Alert :=
  store ++ [a]

/-- Messages delivered by n successive check_alerts passes, as run by the
auto-alert block at src/utils.py lines 208-210 on every page load (and by
the Run Alert Check Now button at lines 69-75). check_alerts never writes
session_state.alerts and the alerts frame carries no fired column, so
every pass evaluates the same rules against the same state. -/
def repeatedPasses (price : String → Option ℚ) (df : List PnlRow)
    (alerts : List Alert) : ℕ → List Msg
  | 0 => []
  | n + 1 => (checkAlerts price df alerts).sent ++ repeatedPasses price df alerts n

/-- A valuation of one position, the figures displayed by the Live P&L
loop of src/app.py lines 286-296 and by the dashboard of src/utils.py
lines 88-97: current price, market value, invested value, absolute P&L,
and the P&L percentage (none standing for the undefined sentinel). -/
structure PosValuation where
  current_price : ℚ
  value : ℚ
  invested : ℚ
  pnl : ℚ
  pnl_pct : Option ℚ
deriving DecidableEq

/-- Modelled from the spec: the calculate_pnl valuation imported in
src/utils.py line 7 comes from a utils module that is not among the
source files. Market value, invested value and absolute P&L follow the
in-source arithmetic of the Live P&L loop (src/app.py lines 288-295:
value = price * qty, pnl = value - buy_price * qty); the zero-invested
guard on the percentage follows the spec sentinel (undefined, reported
not computed, when invested value is zero), the same guard pattern the
source applies to the portfolio total at src/utils.py line 94. -/
def valuate (price qty cost : ℚ) : PosValuation :=
  let value := price * qty
  let invested := cost * qty
  let pnl := value - invested
  { current_price := price
    value := value
    invested := invested
    pnl := pnl
    pnl_pct := if invested = 0 then none else some (pnl / invested * 100) }

/-- Modelled from the spec: day numbers count from an epoch aligned so
that residues 0-4 modulo 7 fall on business days and residues 5-6 on the
weekend. -/
def isBusinessDay (d : ℕ) : Bool :=
  d % 7 < 5

/-- Modelled from the spec: the next business day strictly after day d;
weekend days are skipped. -/
def nextBusinessDay (d : ℕ) : ℕ :=
  if (d + 1) % 7 = 5 then d + 3
  else if (d + 1) % 7 = 6 then d + 2
  else d + 1

/-- Modelled from the spec: the forecast failure mode. The forecast_stock
function imported in src/utils.py line 7 is not among the source files;
per the spec a forecast over too short a history fails with the explicit
InsufficientHistory result instead of raising. -/
inductive ForecastError where
  | insufficientHistory
deriving DecidableEq

/-- Modelled from the spec: one forecast output point, carrying the date,
the point estimate and the lower and upper bounds of the uncertainty band
(the ds, yhat, yhat_lower and yhat_upper columns read by the dashboard at
src/utils.py lines 108-113). -/
structure ForecastPoint where
  ds : ℕ
  yhat : ℚ
  lower : ℚ
  upper : ℚ
deriving DecidableEq

/-- Modelled from the spec: the minimum number of historical samples
(20 trading days) below which the forecaster refuses to extrapolate. -/
def minHistory : ℕ := 20

/-- Modelled from the spec: the ordinary-least-squares fit of closing
prices against the time index 0, 1, ...; returns the slope and the
intercept of the fitted line. -/
def olsFit (ys : List ℚ) : ℚ × ℚ :=
  let n : ℚ := ys.length
  let idx : List ℚ := (List.range ys.length).map (fun i => (i : ℚ))
  let sx := idx.sum
  let sy := ys.sum
  let sxx := (idx.map (fun x => x * x)).sum
  let sxy := ((idx.zip ys).map (fun p => p.1 * p.2)).sum
  let slope := (n * sxy - sx * sy) / (n * sxx - sx * sx)
  (slope, (sy - slope * sx) / n)

/-- Modelled from the spec: the forecaster. The repository forecast_stock
is not among the source files, and predict_with_sentiment in src/app.py
lines 160-184 delegates the projection to the third-party Prophet
library. Per the spec baseline: fail with InsufficientHistory when fewer
than minHistory samples are given; otherwise project horizon points along
the OLS line fitted to the history, one per business day starting after
the last historical sample, with a fixed band of plus and minus 10
percent around each point estimate (the forecastPoint band below). -/
def forecastPoint (slope intercept : ℚ) (lastDate n i : ℕ) : ForecastPoint :=
  let y := slope * ((n + i : ℕ) : ℚ) + intercept
  { ds := nextBusinessDay^[i + 1] lastDate
    yhat := y
    lower := y * (9 / 10)
    upper := y * (11 / 10) }

/-- Modelled from the spec: the forecaster body. The repository
forecast_stock is not among the source files, and predict_with_sentiment
in src/app.py lines 160-184 delegates the projection to the third-party
Prophet library. Per the spec baseline this projects horizon points along
the OLS line fitted to the history, one per business day starting after
the last historical sample. -/
def forecast (history : List (ℕ × ℚ)) (horizon : ℕ) :
    Except ForecastError (List ForecastPoint) :=
  if history.length < minHistory then .error .insufficientHistory
  else
    .ok ((List.range horizon).map (fun i =>
      forecastPoint (olsFit (history.map (·.2))).1 (olsFit (history.map (·.2))).2
        (((history.getLast?).map (·.1)).getD 0) history.length i))

/-- A 20-sample flat price history at 100 over four business weeks, used
as a concrete forecaster input. -/
def histFlat20 : List (ℕ × ℚ) :=
  [(0, 100), (1, 100), (2, 100), (3, 100), (4, 100),
   (7, 100), (8, 100), (9, 100), (10, 100), (11, 100),
   (14, 100), (15, 100), (16, 100), (17, 100), (18, 100),
   (21, 100), (22, 100), (23, 100), (24, 100), (25, 100)]

/-- A 19-sample flat price history, one sample short of the minimum. -/
def histFlat19 : List (ℕ × ℚ) :=
  (List.range 19).map (fun i => (i, (100 : ℚ)))

/-- A 20-sample history with prices falling by 50 per day, a concrete
forecaster input whose OLS projection goes negative within the horizon. -/
def histDrop20 : List (ℕ × ℚ) :=
  [(0, 1000), (1, 950), (2, 900), (3, 850), (4, 800),
   (5, 750), (6, 700), (7, 650), (8, 600), (9, 550),
   (10, 500), (11, 450), (12, 400), (13, 350), (14, 300),
   (15, 250), (16, 200), (17, 150), (18, 100), (19, 50)]

/-- A concrete price source quoting 120 for symbol A and failing for
every other symbol. -/
def priceOnlyA : String → Option ℚ :=
  fun s => if s == "A" then some 120 else none

/-- A concrete one-row valuation frame in which symbol A sits at a P&L of
minus 12 percent. -/
def dfNegA : List PnlRow :=
  [⟨"A", -12⟩]

/-- The ticker symbol A as a named constant. -/
def symA : String :=
  "A"

/-- A concrete price source failing for symbol A and quoting symbols B
and C, the three-position outage scenario of the spec. -/
def priceBC : String → Option ℚ :=
  fun s => if s == "B" then some 50 else if s == "C" then some 80 else none

/-- The valuation frame of the outage scenario: the two positions whose
quotes succeeded were valuated normally. -/
def dfBC : List PnlRow :=
  [⟨"B", 20⟩, ⟨"C", -12⟩]

/-- The alert store of the outage scenario: one rule per position. -/
def alertsABC : List Alert :=
  [⟨"A", AType.profit, 5⟩, ⟨"B", AType.profit, 10⟩, ⟨"C", AType.drop, 10⟩]

/-- A concrete price source quoting 7 for every symbol. -/
def priceAll7 : String → Option ℚ :=
  fun _ => some 7

/-- A concrete alert store in which the second rule hits the absent-symbol
lookup: the first rule sends, the third is never reached. -/
def alertsGXY : List Alert :=
  [⟨"G", AType.price, 5⟩, ⟨"X", AType.profit, 5⟩, ⟨"Y", AType.profit, 1⟩]

end StockGuardian

namespace StockGuardian

theorem isBusinessDay_nextBusinessDay (d : ℕ) :
    isBusinessDay (nextBusinessDay d) = true := by
  unfold isBusinessDay nextBusinessDay
  split
  · simp only [decide_eq_true_eq]; omega
  · split <;> (simp only [decide_eq_true_eq]; omega)

theorem lt_nextBusinessDay (d : ℕ) : d < nextBusinessDay d := by
  unfold nextBusinessDay
  split
  · omega
  · split <;> omega

theorem nextBusinessDay_iterate_strictMono (x : ℕ) :
    StrictMono (fun n => nextBusinessDay^[n] x) := by
  apply strictMono_nat_of_lt_succ
  intro n
  rw [Function.iterate_succ_apply']
  exact lt_nextBusinessDay _

theorem evalOne_skip_of_fail (price : String → Option ℚ) (df : List PnlRow)
    (a : Alert) (h : price a.symbol = none) :
    evalOne price df a = Step.skip := by
  unfold evalOne
  rw [h]

theorem evalOne_send_symbol (price : String → Option ℚ) (df : List PnlRow)
    (a : Alert) (m : Msg) (h : evalOne price df a = Step.send m) :
    m.symbol = a.symbol := by
  unfold evalOne at h
  split at h
  · cases h
  · split at h
    · cases h
    · split at h
      · split at h
        · cases h; rfl
        · cases h
      · split at h
        · cases h
        · split at h
          · cases h; rfl
          · cases h
      · split at h
        · cases h
        · split at h
          · cases h; rfl
          · cases h

theorem evalOne_eq_raiseErr_iff (price : String → Option ℚ) (df : List PnlRow)
    (a : Alert) :
    evalOne price df a = Step.raiseErr ↔
      a.atype ≠ AType.price ∧
        (∃ cur, price a.symbol = some cur ∧ cur ≠ 0) ∧
        lookupPnl df a.symbol = none := by
  unfold evalOne
  split
  · rename_i heq
    simp [heq]
  · rename_i cur heq
    split
    · rename_i hc
      simp [heq, hc]
    · rename_i hc
      split
      · rename_i hty
        split <;> simp [hty]
      · rename_i hty
        split
        · rename_i hk
          simp [hty, hk, heq, hc]
        · rename_i pct hk
          split <;> simp [hty, hk]
      · rename_i hty
        split
        · rename_i hk
          simp [hty, hk, heq, hc]
        · rename_i pct hk
          split <;> simp [hty, hk]

theorem forecast_histFlat20_eval :
    forecast histFlat20 1 = Except.ok [⟨28, 100, 90, 110⟩] := by
  norm_num [forecast, forecastPoint, olsFit, histFlat20, minHistory,
    nextBusinessDay, List.range_succ]

theorem forecast_histDrop20_eval :
    forecast histDrop20 2 = Except.ok [⟨21, 0, 0, 0⟩, ⟨22, -50, -45, -55⟩] := by
  norm_num [forecast, forecastPoint, olsFit, histDrop20, minHistory,
    nextBusinessDay, List.range_succ]

end StockGuardian

namespace StockGuardian

/-- Claim C1: single-fire alert semantics. The claim says a rule that has
fired once produces no second TriggeredAlert or notification on later
evaluation passes until reset or deleted. The code keeps no fired state:
the alerts frame has no fired column and check_alerts never writes it, so
a second pass over the unchanged store re-sends the notification for a
rule whose condition still holds. Concretely, one price alert whose
condition holds yields one notification per pass: two passes deliver two
notifications for the same rule with no reset in between. -/
theorem repeatedPasses_refire :
    (repeatedPasses priceOnlyA [] [⟨"A", AType.price, 100⟩] 1).length = 1 ∧
    (repeatedPasses priceOnlyA [] [⟨"A", AType.price, 100⟩] 2).length = 2 ∧
    ∀ m ∈ repeatedPasses priceOnlyA [] [⟨"A", AType.price, 100⟩] 2,
      m = ⟨"A", AType.price, 100, 120⟩ := by decide

/-- Claim C2: rule deduplication. The claim says the store never holds two
rules with the same (symbol, kind, threshold) key and a duplicate add is
rejected or collapsed. The Create Alert handler appends by concat with no
duplicate check: adding the identical rule twice leaves two equal rows in
the store, and a single threshold crossing then delivers two
notifications. -/
theorem createAlert_no_dedup :
    createAlert (createAlert [] ⟨"A", AType.price, 100⟩) ⟨"A", AType.price, 100⟩
        = [⟨"A", AType.price, 100⟩, ⟨"A", AType.price, 100⟩] ∧
    (checkAlerts priceOnlyA []
        (createAlert (createAlert [] ⟨"A", AType.price, 100⟩)
          ⟨"A", AType.price, 100⟩)).sent.length = 2 := by decide

/-- Claim C3: evaluator trigger conditions. For a rule whose symbol has a
truthy quote cur, a price rule sends exactly when cur is at least the
threshold; a profit rule sends exactly when pnl_pct is defined in df_pnl
and at least the threshold; a drop rule with positive threshold t sends
exactly when pnl_pct is defined and at most -t. -/
theorem evalOne_trigger_conditions (p : String → Option ℚ) (df : List PnlRow)
    (sym : String) (t cur : ℚ) (hp : p sym = some cur) (hcur : cur ≠ 0) :
    ((∃ m, evalOne p df ⟨sym, AType.price, t⟩ = Step.send m) ↔ t ≤ cur) ∧
    ((∃ m, evalOne p df ⟨sym, AType.profit, t⟩ = Step.send m) ↔
      ∃ pct, lookupPnl df sym = some pct ∧ t ≤ pct) ∧
    (0 < t →
      ((∃ m, evalOne p df ⟨sym, AType.drop, t⟩ = Step.send m) ↔
        ∃ pct, lookupPnl df sym = some pct ∧ pct ≤ -t)) := by
  refine ⟨?_, ?_, ?_⟩
  · unfold evalOne
    simp only [hp]
    rw [if_neg hcur]
    constructor
    · rintro ⟨m, hm⟩
      by_contra hlt
      rw [if_neg hlt] at hm
      cases hm
    · intro hle
      exact ⟨_, by rw [if_pos hle]⟩
  · unfold evalOne
    simp only [hp]
    rw [if_neg hcur]
    rcases hk : lookupPnl df sym with _ | pct
    · simp [hk]
    · simp only [hk]
      constructor
      · rintro ⟨m, hm⟩
        by_cases ht : t ≤ pct
        · exact ⟨pct, rfl, ht⟩
        · rw [if_neg ht] at hm
          cases hm
      · rintro ⟨pct2, hp2, ht⟩
        cases hp2
        exact ⟨_, by rw [if_pos ht]⟩
  · intro ht
    unfold evalOne
    simp only [hp]
    rw [if_neg hcur]
    rcases hk : lookupPnl df sym with _ | pct
    · simp [hk]
    · simp only [hk, abs_of_pos ht]
      constructor
      · rintro ⟨m, hm⟩
        by_cases hle : pct ≤ -t
        · exact ⟨pct, rfl, hle⟩
        · rw [if_neg hle] at hm
          cases hm
      · rintro ⟨pct2, hp2, hle⟩
        cases hp2
        exact ⟨_, by rw [if_pos hle]⟩

/-- Witness for the C3 trigger conditions at a concrete quote of 120 for
symbol A, threshold 10 and a stored P&L of minus 12 percent. -/
theorem evalOne_trigger_conditions_witness :
    ((∃ m, evalOne priceOnlyA dfNegA ⟨"A", AType.price, 10⟩ = Step.send m) ↔
      (10 : ℚ) ≤ 120) ∧
    ((∃ m, evalOne priceOnlyA dfNegA ⟨"A", AType.profit, 10⟩ = Step.send m) ↔
      ∃ pct, lookupPnl dfNegA symA = some pct ∧ (10 : ℚ) ≤ pct) ∧
    ((∃ m, evalOne priceOnlyA dfNegA ⟨"A", AType.drop, 10⟩ = Step.send m) ↔
      ∃ pct, lookupPnl dfNegA symA = some pct ∧ pct ≤ -(10 : ℚ)) :=
  match evalOne_trigger_conditions priceOnlyA dfNegA symA 10 120 rfl (by decide) with
  | ⟨h1, h2, h3⟩ => ⟨h1, h2, h3 (by decide)⟩

/-- Claim C5: valuation arithmetic. For positive quantity and cost basis,
valuate returns market value price times quantity, invested value cost
times quantity, absolute P&L their difference, and percentage P&L equal
to absolute P&L over invested value times 100; at quantity 10, cost 100
and price 120 it returns 1200, 1000, 200 and 20 percent. -/
theorem valuate_arithmetic (price qty cost : ℚ) (hq : 0 < qty) (hc : 0 < cost) :
    (valuate price qty cost).value = price * qty ∧
    (valuate price qty cost).invested = cost * qty ∧
    (valuate price qty cost).pnl
        = (valuate price qty cost).value - (valuate price qty cost).invested ∧
    (valuate price qty cost).pnl_pct
        = some ((valuate price qty cost).pnl / (valuate price qty cost).invested * 100) ∧
    valuate 120 10 100 = ⟨120, 1200, 1000, 200, some 20⟩ := by
  have hI : cost * qty ≠ 0 := ne_of_gt (mul_pos hc hq)
  refine ⟨rfl, rfl, rfl, ?_, ?_⟩
  · show (if cost * qty = 0 then none
        else some ((price * qty - cost * qty) / (cost * qty) * 100))
      = some ((price * qty - cost * qty) / (cost * qty) * 100)
    rw [if_neg hI]
  · norm_num [valuate]

/-- Witness for the C5 valuation arithmetic at the spec scenario inputs. -/
theorem valuate_arithmetic_witness :
    (0 : ℚ) < 10 ∧ (0 : ℚ) < 100 ∧
    valuate 120 10 100 = ⟨120, 1200, 1000, 200, some 20⟩ :=
  ⟨by decide, by decide, (valuate_arithmetic 120 10 100 (by decide) (by decide)).2.2.2.2⟩

/-- Claim C6: division-by-zero safety. When invested value is exactly
zero, valuate reports the undefined sentinel for the percentage (the
guarded branch, no division is evaluated) and still produces the other
valuation fields. -/
theorem valuate_zero_invested (price qty cost : ℚ) (h : cost * qty = 0) :
    (valuate price qty cost).pnl_pct = none ∧
    (valuate price qty cost).current_price = price ∧
    (valuate price qty cost).value = price * qty ∧
    (valuate price qty cost).invested = cost * qty ∧
    (valuate price qty cost).pnl
        = (valuate price qty cost).value - (valuate price qty cost).invested := by
  refine ⟨?_, rfl, rfl, rfl, rfl⟩
  show (if cost * qty = 0 then none
      else some ((price * qty - cost * qty) / (cost * qty) * 100))
    = (none : Option ℚ)
  rw [if_pos h]

/-- Witness for the C6 zero-invested sentinel at quantity zero. -/
theorem valuate_zero_invested_witness :
    (100 : ℚ) * 0 = 0 ∧ (valuate 120 0 100).pnl_pct = none :=
  ⟨by simp, (valuate_zero_invested 120 0 100 (by simp)).1⟩

/-- Claim C9: linearity of valuation in quantity. Doubling the quantity
doubles market value, invested value and absolute P&L and leaves the P&L
percentage unchanged. -/
theorem valuate_linear_in_quantity (price qty cost : ℚ) (hq : 0 < qty) (hc : 0 < cost) :
    (valuate price (2 * qty) cost).value = 2 * (valuate price qty cost).value ∧
    (valuate price (2 * qty) cost).invested = 2 * (valuate price qty cost).invested ∧
    (valuate price (2 * qty) cost).pnl = 2 * (valuate price qty cost).pnl ∧
    (valuate price (2 * qty) cost).pnl_pct = (valuate price qty cost).pnl_pct := by
  have hI : cost * qty ≠ 0 := ne_of_gt (mul_pos hc hq)
  have h2q : (0 : ℚ) < 2 * qty := by linarith
  have hI2 : cost * (2 * qty) ≠ 0 := ne_of_gt (mul_pos hc h2q)
  refine ⟨?_, ?_, ?_, ?_⟩
  · show price * (2 * qty) = 2 * (price * qty)
    ring
  · show cost * (2 * qty) = 2 * (cost * qty)
    ring
  · show price * (2 * qty) - cost * (2 * qty) = 2 * (price * qty - cost * qty)
    ring
  · show (if cost * (2 * qty) = 0 then none
        else some ((price * (2 * qty) - cost * (2 * qty)) / (cost * (2 * qty)) * 100))
      = (if cost * qty = 0 then none
        else some ((price * qty - cost * qty) / (cost * qty) * 100))
    rw [if_neg hI2, if_neg hI]
    congr 1
    field_simp
    ring

/-- Witness for the C9 linearity at the spec scenario inputs. -/
theorem valuate_linear_in_quantity_witness :
    (valuate 120 (2 * 10) 100).value = 2 * (valuate 120 10 100).value ∧
    (valuate 120 (2 * 10) 100).invested = 2 * (valuate 120 10 100).invested ∧
    (valuate 120 (2 * 10) 100).pnl = 2 * (valuate 120 10 100).pnl ∧
    (valuate 120 (2 * 10) 100).pnl_pct = (valuate 120 10 100).pnl_pct :=
  valuate_linear_in_quantity 120 10 100 (by decide) (by decide)

end StockGuardian

namespace StockGuardian

/-- Claim C4: per-symbol failure isolation in the alert pass. When the
price source fails for symbol s (a falsy quote), every rule for s is
skipped before any condition or lookup is evaluated: the whole pass
equals the pass over the store with the rules for s removed, it raises
nothing (given the surviving profit and drop rules find their symbols in
df_pnl), and no delivered message concerns s. -/
theorem checkAlerts_failed_symbol_isolated (p : String → Option ℚ)
    (df : List PnlRow) (s : String) (alerts : List Alert)
    (hfail : p s = none)
    (hother : ∀ a ∈ alerts, a.symbol ≠ s → a.atype ≠ AType.price →
      lookupPnl df a.symbol ≠ none) :
    checkAlerts p df alerts
        = checkAlerts p df (alerts.filter (fun a => a.symbol != s)) ∧
    (checkAlerts p df alerts).raised = false ∧
    ∀ m ∈ (checkAlerts p df alerts).sent, m.symbol ≠ s := by
  induction alerts with
  | nil =>
    refine ⟨rfl, rfl, ?_⟩
    intro m hm
    simp [checkAlerts] at hm
  | cons a rest ih =>
    have hrest := ih (fun b hb hbs hbt => hother b (List.mem_cons_of_mem _ hb) hbs hbt)
    by_cases hsym : a.symbol = s
    · have hskip : evalOne p df a = Step.skip :=
        evalOne_skip_of_fail p df a (by rw [hsym]; exact hfail)
      have hstepL : checkAlerts p df (a :: rest) = checkAlerts p df rest := by
        simp only [checkAlerts, hskip]
      have hfilter : (a :: rest).filter (fun x => x.symbol != s)
          = rest.filter (fun x => x.symbol != s) := by
        simp [List.filter_cons, hsym]
      rw [hstepL, hfilter]
      exact hrest
    · have hfilter : (a :: rest).filter (fun x => x.symbol != s)
          = a :: rest.filter (fun x => x.symbol != s) := by
        simp [List.filter_cons, hsym]
      rcases hstep : evalOne p df a with _ | m | _
      · have hstepL : checkAlerts p df (a :: rest) = checkAlerts p df rest := by
          simp only [checkAlerts, hstep]
        have hstepR : checkAlerts p df (a :: rest.filter (fun x => x.symbol != s))
            = checkAlerts p df (rest.filter (fun x => x.symbol != s)) := by
          simp only [checkAlerts, hstep]
        rw [hstepL, hfilter, hstepR]
        exact hrest
      · have hstepL : checkAlerts p df (a :: rest)
            = ⟨m :: (checkAlerts p df rest).sent, (checkAlerts p df rest).raised⟩ := by
          simp only [checkAlerts, hstep]
        have hstepR : checkAlerts p df (a :: rest.filter (fun x => x.symbol != s))
            = ⟨m :: (checkAlerts p df (rest.filter (fun x => x.symbol != s))).sent,
               (checkAlerts p df (rest.filter (fun x => x.symbol != s))).raised⟩ := by
          simp only [checkAlerts, hstep]
        have hmsym : m.symbol = a.symbol := evalOne_send_symbol p df a m hstep
        refine ⟨?_, ?_, ?_⟩
        · rw [hstepL, hfilter, hstepR, hrest.1]
        · rw [hstepL]
          show (checkAlerts p df rest).raised = false
          exact hrest.2.1
        · rw [hstepL]
          intro m2 hm2
          rcases List.mem_cons.mp hm2 with h1 | h1
          · rw [h1, hmsym]; exact hsym
          · exact hrest.2.2 m2 h1
      · exfalso
        obtain ⟨hty, _, hlk⟩ := (evalOne_eq_raiseErr_iff p df a).mp hstep
        exact hother a (List.mem_cons_self a rest) hsym hty hlk

/-- Witness for the C4 isolation in the three-position outage scenario:
the quote for A fails, the rules for B and C are evaluated normally and
the pass neither raises nor mentions A. -/
theorem checkAlerts_failed_symbol_isolated_witness :
    priceBC symA = none ∧
    (checkAlerts priceBC dfBC alertsABC
        = checkAlerts priceBC dfBC (alertsABC.filter (fun a => a.symbol != "A")) ∧
      (checkAlerts priceBC dfBC alertsABC).raised = false ∧
      ∀ m ∈ (checkAlerts priceBC dfBC alertsABC).sent, m.symbol ≠ "A") :=
  ⟨rfl, checkAlerts_failed_symbol_isolated priceBC dfBC symA alertsABC rfl (by decide)⟩

end StockGuardian

namespace StockGuardian

/-- Claim C7: forecast history precondition and output shape. With fewer
than minHistory samples the forecaster fails with the explicit
InsufficientHistory result; with exactly minHistory samples it succeeds
and returns exactly horizon points whose dates are business days only,
each successive date the next business day after the previous one (so no
gaps and no duplicates), starting at the next business day after the last
historical sample. -/
theorem forecast_history_precondition (history : List (ℕ × ℚ)) (horizon : ℕ) :
    (history.length < minHistory →
      forecast history horizon = Except.error ForecastError.insufficientHistory) ∧
    (history.length = minHistory →
      ∃ pts, forecast history horizon = Except.ok pts ∧
        pts.length = horizon ∧
        (∀ pt ∈ pts, isBusinessDay pt.ds = true) ∧
        (∀ i (h1 : i < pts.length) (h2 : i + 1 < pts.length),
          (pts.get ⟨i + 1, h2⟩).ds = nextBusinessDay (pts.get ⟨i, h1⟩).ds) ∧
        List.Pairwise (fun p q : ForecastPoint => p.ds < q.ds) pts ∧
        (∀ h0 : 0 < pts.length,
          (pts.get ⟨0, h0⟩).ds
            = nextBusinessDay (((history.getLast?).map (·.1)).getD 0))) := by
  constructor
  · intro h
    unfold forecast
    rw [if_pos h]
  · intro h
    have hnot : ¬ history.length < minHistory := by omega
    unfold forecast
    rw [if_neg hnot]
    refine ⟨_, rfl, ?_, ?_, ?_, ?_, ?_⟩
    · simp
    · intro pt hpt
      simp only [List.mem_map, List.mem_range] at hpt
      obtain ⟨i, _, rfl⟩ := hpt
      show isBusinessDay (nextBusinessDay^[i + 1] _) = true
      rw [Function.iterate_succ_apply']
      exact isBusinessDay_nextBusinessDay _
    · intro i h1 h2
      simp only [List.get_eq_getElem, List.getElem_map, List.getElem_range]
      show nextBusinessDay^[i + 1 + 1] _ = nextBusinessDay (nextBusinessDay^[i + 1] _)
      rw [Function.iterate_succ_apply']
    · rw [List.pairwise_map]
      exact (List.pairwise_lt_range horizon).imp
        (fun hab => nextBusinessDay_iterate_strictMono _ (Nat.succ_lt_succ hab))
    · intro h0
      simp only [List.get_eq_getElem, List.getElem_map, List.getElem_range]
      rfl

/-- Witness for the C7 precondition: a 19-sample history is refused with
InsufficientHistory, a 20-sample history yields exactly 5 points, all on
business days. -/
theorem forecast_history_precondition_witness :
    forecast histFlat19 5 = Except.error ForecastError.insufficientHistory ∧
    ∃ pts, forecast histFlat20 5 = Except.ok pts ∧ pts.length = 5 ∧
      ∀ pt ∈ pts, isBusinessDay pt.ds = true :=
  ⟨(forecast_history_precondition histFlat19 5).1 (by decide),
   match (forecast_history_precondition histFlat20 5).2 (by decide) with
   | ⟨pts, h1, h2, h3, _⟩ => ⟨pts, h1, h2, h3⟩⟩

end StockGuardian

namespace StockGuardian

theorem band_le_of_nonneg (y : ℚ) (hy : 0 ≤ y) :
    y * (9 / 10) ≤ y ∧ y ≤ y * (11 / 10) := by
  constructor <;> nlinarith

/-- Claim C8 counterexample: the bound invariant lower <= point estimate
fails as stated. On a 20-sample history falling by 50 per day the OLS
projection goes negative inside the horizon, and the fixed multiplicative
band then sits above the point estimate: the second projected point has
estimate -50 with lower bound -45. -/
theorem forecast_band_not_ordered :
    ∃ pts, forecast histDrop20 2 = Except.ok pts ∧
      ∃ pt ∈ pts, pt.yhat < pt.lower :=
  ⟨[⟨21, 0, 0, 0⟩, ⟨22, -50, -45, -55⟩], forecast_histDrop20_eval,
   ⟨22, -50, -45, -55⟩, by decide, by decide⟩

/-- Claim C8 (amended): every point of every forecast carries the fixed
band lower = yhat * 9/10 and upper = yhat * 11/10, and whenever the point
estimate is nonnegative the band is ordered: lower <= yhat <= upper. -/
theorem forecast_band (history : List (ℕ × ℚ)) (horizon : ℕ)
    (pts : List ForecastPoint) (h : forecast history horizon = Except.ok pts) :
    ∀ pt ∈ pts, pt.lower = pt.yhat * (9 / 10) ∧ pt.upper = pt.yhat * (11 / 10) ∧
      (0 ≤ pt.yhat → pt.lower ≤ pt.yhat ∧ pt.yhat ≤ pt.upper) := by
  unfold forecast at h
  split at h
  · cases h
  · cases h
    intro pt hpt
    simp only [List.mem_map, List.mem_range] at hpt
    obtain ⟨i, _, rfl⟩ := hpt
    exact ⟨rfl, rfl, fun hy => band_le_of_nonneg _ hy⟩

/-- Witness for the C8 band on the flat history: the single projected
point has estimate 100 with ordered band 90 and 110. -/
theorem forecast_band_witness :
    (90 : ℚ) = 100 * (9 / 10) ∧ (110 : ℚ) = 100 * (11 / 10) ∧
    (90 : ℚ) ≤ 100 ∧ (100 : ℚ) ≤ 110 :=
  match forecast_band histFlat20 1 [⟨28, 100, 90, 110⟩] forecast_histFlat20_eval
      ⟨28, 100, 90, 110⟩ (List.mem_singleton.mpr rfl) with
  | ⟨h1, h2, h3⟩ =>
    match h3 (by decide) with
    | ⟨h4, h5⟩ => ⟨h1, h2, h4, h5⟩

end StockGuardian

namespace StockGuardian

/-- Claim C10 counterexample: completing without raising does not require
every profit or drop alert symbol to be present in df_pnl. A profit alert
for a symbol absent from df_pnl whose price fetch fails is skipped before
the lookup, so the pass completes without raising. -/
theorem checkAlerts_completes_despite_absent_symbol :
    (checkAlerts (fun _ => none) [] [⟨"X", AType.profit, 5⟩]).raised = false ∧
    lookupPnl [] "X" = none := by decide

/-- Claim C10 (amended): the alert pass raises exactly when some profit or
drop alert with a truthy price fetch has its symbol absent from df_pnl;
and when an alert raises, the pass aborts there, delivering exactly the
messages of the preceding rules and never evaluating the later ones. -/
theorem checkAlerts_raise_characterization (p : String → Option ℚ)
    (df : List PnlRow) (alerts : List Alert) :
    ((checkAlerts p df alerts).raised = true ↔
      ∃ a ∈ alerts, a.atype ≠ AType.price ∧
        (∃ cur, p a.symbol = some cur ∧ cur ≠ 0) ∧
        lookupPnl df a.symbol = none) ∧
    ∀ pre post bad, alerts = pre ++ bad :: post →
      (checkAlerts p df pre).raised = false →
      evalOne p df bad = Step.raiseErr →
      checkAlerts p df alerts = ⟨(checkAlerts p df pre).sent, true⟩ := by
  constructor
  · induction alerts with
    | nil => simp [checkAlerts]
    | cons a rest ih =>
      rcases hstep : evalOne p df a with _ | m | _
      · have hna : ¬(a.atype ≠ AType.price ∧
            (∃ cur, p a.symbol = some cur ∧ cur ≠ 0) ∧
            lookupPnl df a.symbol = none) := by
          intro hpred
          rw [(evalOne_eq_raiseErr_iff p df a).mpr hpred] at hstep
          cases hstep
        have hL : checkAlerts p df (a :: rest) = checkAlerts p df rest := by
          simp only [checkAlerts, hstep]
        rw [hL, ih]
        constructor
        · rintro ⟨b, hb, hpred⟩
          exact ⟨b, List.mem_cons_of_mem _ hb, hpred⟩
        · rintro ⟨b, hb, hpred⟩
          rcases List.mem_cons.mp hb with rfl | hb2
          · exact absurd hpred hna
          · exact ⟨b, hb2, hpred⟩
      · have hna : ¬(a.atype ≠ AType.price ∧
            (∃ cur, p a.symbol = some cur ∧ cur ≠ 0) ∧
            lookupPnl df a.symbol = none) := by
          intro hpred
          rw [(evalOne_eq_raiseErr_iff p df a).mpr hpred] at hstep
          cases hstep
        have hL : checkAlerts p df (a :: rest)
            = ⟨m :: (checkAlerts p df rest).sent, (checkAlerts p df rest).raised⟩ := by
          simp only [checkAlerts, hstep]
        rw [hL]
        show (checkAlerts p df rest).raised = true ↔ _
        rw [ih]
        constructor
        · rintro ⟨b, hb, hpred⟩
          exact ⟨b, List.mem_cons_of_mem _ hb, hpred⟩
        · rintro ⟨b, hb, hpred⟩
          rcases List.mem_cons.mp hb with rfl | hb2
          · exact absurd hpred hna
          · exact ⟨b, hb2, hpred⟩
      · have hL : checkAlerts p df (a :: rest) = ⟨[], true⟩ := by
          simp only [checkAlerts, hstep]
        rw [hL]
        constructor
        · intro _
          exact ⟨a, List.mem_cons_self a rest,
            (evalOne_eq_raiseErr_iff p df a).mp hstep⟩
        · intro _
          rfl
  · rintro pre post bad rfl
    induction pre with
    | nil =>
      intro hpre hbad
      show checkAlerts p df (bad :: post) = _
      simp only [checkAlerts, hbad]
    | cons b pre ih =>
      intro hpre hbad
      rcases hstep : evalOne p df b with _ | m | _
      · have hP : checkAlerts p df (b :: pre) = checkAlerts p df pre := by
          simp only [checkAlerts, hstep]
        rw [hP] at hpre ⊢
        have hL : checkAlerts p df ((b :: pre) ++ bad :: post)
            = checkAlerts p df (pre ++ bad :: post) := by
          rw [List.cons_append]
          simp only [checkAlerts, hstep]
        rw [hL]
        exact ih hpre hbad
      · have hP : checkAlerts p df (b :: pre)
            = ⟨m :: (checkAlerts p df pre).sent, (checkAlerts p df pre).raised⟩ := by
          simp only [checkAlerts, hstep]
        replace hpre : (checkAlerts p df pre).raised = false := by
          rw [hP] at hpre
          exact hpre
        have hL : checkAlerts p df ((b :: pre) ++ bad :: post)
            = ⟨m :: (checkAlerts p df (pre ++ bad :: post)).sent,
               (checkAlerts p df (pre ++ bad :: post)).raised⟩ := by
          rw [List.cons_append]
          simp only [checkAlerts, hstep]
        rw [hL, hP, ih hpre hbad]
      · have hP : checkAlerts p df (b :: pre) = ⟨[], true⟩ := by
          simp only [checkAlerts, hstep]
        rw [hP] at hpre
        cases hpre

/-- Witness for the C10 characterization: with a universal quote of 7 and
an empty df_pnl, the first price rule sends, the second rule raises on
the absent-symbol lookup, and the third rule is never evaluated. -/
theorem checkAlerts_raise_characterization_witness :
    (checkAlerts priceAll7 [] alertsGXY).raised = true ∧
    checkAlerts priceAll7 [] alertsGXY
      = ⟨(checkAlerts priceAll7 [] [⟨"G", AType.price, 5⟩]).sent, true⟩ :=
  match checkAlerts_raise_characterization priceAll7 [] alertsGXY with
  | ⟨h1, h2⟩ =>
    ⟨h1.mpr ⟨⟨"X", AType.profit, 5⟩, by decide, by decide, ⟨7, rfl, by decide⟩, by decide⟩,
     h2 [⟨"G", AType.price, 5⟩] [⟨"Y", AType.profit, 1⟩] ⟨"X", AType.profit, 5⟩ rfl
       (by decide) (by decide)⟩

end StockGuardian
